import Mathlib

/-!
Verification of the segmentation commands module
(`extensions/cornerstone-dicom-seg`-style `commandsModule`) of the Viewers
repository.  The TypeScript actions are shallowly embedded as pure Lean
functions over an explicit environment `Env` that models the external
services (segmentation state, image cache, viewport grid, data sources,
prompt dialog, external adapters).  A thrown JavaScript exception is
modelled by `Except JSError`; observable side effects (downloads,
navigation, metadata-store writes) are fields of the returned outcome
records.
-/

/-- A thrown JavaScript error: either a `TypeError` arising from a property
access on `undefined`, or an `Error` constructed with a message string. -/
inductive JSError where
  | typeError
  | errorMsg (msg : String)
deriving DecidableEq, Repr

/-- A cached cornerstone image: `getPixelData()` gives the buffer, together
with `rows`, `columns` and `referencedImageId`. -/
structure Image where
  pixelData : List Nat
  rows : Nat
  columns : Nat
  referencedImageId : String
deriving DecidableEq, Repr

/-- `segmentation.representationData.Labelmap` of a cornerstone-tools
segmentation state entry. -/
structure LabelmapData where
  imageIds : List String
deriving DecidableEq, Repr

/-- A cornerstone-tools segmentation state entry; `labelmap = none` models an
absent `representationData.Labelmap`. -/
structure CsSegmentation where
  labelmap : Option LabelmapData
deriving DecidableEq, Repr

/-- One segment of the OHIF segmentation service entry.  `algorithmType` and
`algorithmName` are `Option` because the source reads them with `?.` and
defaults them with `||`. -/
structure OhifSegment where
  segmentIndex : Nat
  label : String
  algorithmType : Option String
  algorithmName : Option String
deriving DecidableEq, Repr

/-- The OHIF segmentation service entry: a label and the
`Object.entries(segments)` association (a `none` value models a falsy
segment slot that the source skips). -/
structure OhifSegmentation where
  label : Option String
  segments : List (Nat × Option OhifSegment)
deriving DecidableEq, Repr

/-- A segmentation representation as returned by
`getRepresentationsForSegmentation`; only `viewportId` is read. -/
structure SegRep where
  viewportId : String
deriving DecidableEq, Repr

/-- A DICOM code sequence item. -/
structure CodeSeq where
  CodeValue : String
  CodingSchemeDesignator : String
  CodeMeaning : String
deriving DecidableEq, Repr

/-- The per-segment metadata object built by `generateSegmentation`. -/
structure SegmentMetadata where
  SegmentNumber : String
  SegmentLabel : String
  SegmentAlgorithmType : String
  SegmentAlgorithmName : String
  RecommendedDisplayCIELabValue : List Int
  SegmentedPropertyCategoryCodeSequence : CodeSeq
  SegmentedPropertyTypeCodeSequence : CodeSeq
deriving DecidableEq, Repr

/-- One entry of the `labelmaps2D` array built per slice. -/
structure Labelmap2D where
  segmentsOnLabelmap : List Nat
  pixelData : List Nat
  rows : Nat
  columns : Nat
deriving DecidableEq, Repr

/-- The `labelmap3D` object handed to the external SEG adapter.  The sparse
JavaScript array `metadata[segmentIndex] = ...` is modelled as an
association list from index to metadata. -/
structure Labelmap3D where
  segmentsOnLabelmap : List Nat
  metadata : List (Nat × SegmentMetadata)
  labelmaps2D : List Labelmap2D
deriving DecidableEq, Repr

/-- A naturalized DICOM dataset, abstracted to an identity tag plus the
`wadoRoot` field that `storeSegmentation` assigns onto it. -/
structure Dataset where
  tag : Nat
  wadoRoot : Option String
deriving DecidableEq, Repr

/-- The external SEG adapter's result object; the source destructures
`dataset` and (in the PDF action) `metadata` with a default, so both are
`Option`. -/
structure GeneratedSegmentation where
  dataset : Option Dataset
  metadata : Option (List SegmentMetadata)
deriving DecidableEq, Repr

/-- The `options` argument of `generateSegmentation`. -/
structure GenOptions where
  SeriesDescription : Option String := none
deriving DecidableEq, Repr

/-- An `html2canvas` capture result: `width`, `height` and the
`toDataURL` PNG payload. -/
structure Canvas where
  width : Nat
  height : Nat
  png : String
deriving DecidableEq, Repr

/-- The single PDF page assembled by `downloadSegmentationPdf`: page size
`[canvas.width, canvas.height]`, the embedded PNG, and the drawn text. -/
structure PdfPage where
  width : Nat
  height : Nat
  image : String
  text : String
deriving DecidableEq, Repr

/-- Outcome of a completed `downloadSegmentationPdf`: the produced page and
the triggered download's file name. -/
structure PdfOutcome where
  page : PdfPage
  downloadName : String
deriving DecidableEq, Repr

/-- Outcome of a completed `downloadSegmentation`: the dataset handed to
`downloadDICOMData` and the template-string file name. -/
structure DownloadOutcome where
  dataset : Option Dataset
  filename : String
deriving DecidableEq, Repr

/-- An RT Structure Set dataset, abstract. -/
structure RTSS where
  tag : Nat
deriving DecidableEq, Repr

/-- A serialized blob, abstract. -/
structure Blob where
  tag : Nat
deriving DecidableEq, Repr

/-- Outcome of a completed `downloadRTSS`: the blob URL the browser was
navigated to, if any navigation happened. -/
structure RTSSOutcome where
  navigatedTo : Option String
deriving DecidableEq, Repr

/-- A resolved data-source configuration: its (possibly failing) DICOM store
call and the `getConfig().wadoRoot` value. -/
structure DataSourceConfig where
  store : Dataset → Except JSError Unit
  wadoRoot : String

/-- The resolved result of `createReportDialogPrompt`. -/
structure PromptResult where
  value : Option String
  dataSourceName : Option String
  action : Nat
deriving DecidableEq, Repr

/-- Outcome of a completed `storeSegmentation`: its return value (`none`
models returning `undefined`), the datasets sent to the backend store, and
the instances added to `DicomMetadataStore`. -/
structure StoreOutcome where
  returned : Option Dataset
  storeCalls : List Dataset
  metadataAdded : List Dataset
deriving DecidableEq, Repr

/-- The environment of external services and libraries the commands call
into.  Each field models one service/library function used by the source. -/
structure Env where
  csSeg : String → Option CsSegmentation
  ohifSeg : String → Option OhifSegmentation
  cacheImage : String → Option Image
  representations : String → List SegRep
  getSegmentColor : String → String → Nat → List ℚ
  rgb2DICOMLAB : List ℚ → List ℚ
  adapterGenerate : List (Option Image) → Labelmap3D → GenOptions → GeneratedSegmentation
  activeViewportId : String
  dom : String → Option String
  html2canvas : String → Except JSError Canvas
  rtssOf : OhifSegmentation → RTSS
  datasetToBlob : RTSS → Except JSError Blob
  createObjectURL : Blob → String
  locationAssign : String → Except JSError Unit
  activeDataSource : DataSourceConfig
  getDataSources : String → List DataSourceConfig
  promptResult : PromptResult

/-- JavaScript `x || d` for an optional string `x`: the default applies when
`x` is `undefined` or the empty string (both falsy). -/
def jsOrStr (x : Option String) (d : String) : String :=
  match x with
  | none => d
  | some s => if s = "" then d else s

/-- JavaScript truthiness of an optional string. -/
def jsTruthy (x : Option String) : Bool :=
  match x with
  | none => false
  | some s => s != ""

/-- JavaScript template interpolation of a possibly-`undefined` string. -/
def jsTemplateOpt (x : Option String) : String :=
  x.getD "undefined"

/-- JavaScript `Math.round`: floor of the argument plus one half. -/
def jsRound (q : ℚ) : ℤ :=
  ⌊q + 1 / 2⌋

/-- `Array.prototype.join` with a newline separator. -/
def joinLines : List String → String
  | [] => ""
  | [l] => l
  | l :: rest => l ++ "\n" ++ joinLines rest

/-- `Set.prototype.add`: append the value unless already present (insertion
order is preserved, as `Array.from` of a JS `Set` relies on). -/
def jsSetAdd (s : List Nat) (v : Nat) : List Nat :=
  if v ∈ s then s else s ++ [v]

/-- One iteration of the single pass over a slice's pixel buffer:
`if (segment !== 0) segmentsOnLabelmap.add(segment)`. -/
def collectStep (s : List Nat) (segment : Nat) : List Nat :=
  if segment ≠ 0 then jsSetAdd s segment else s

/-- The single pass over `pixelData` collecting the set of nonzero segment
values, as `Array.from` of the accumulated JS `Set`. -/
def collectSegmentsOnLabelmap (pixelData : List Nat) : List Nat :=
  pixelData.foldl collectStep []

/-- `Array.from(new Set(l))`: deduplicate preserving first occurrences. -/
def jsSetFrom (l : List Nat) : List Nat :=
  l.foldl jsSetAdd []

/-- `Array.prototype.flat()`, one level. -/
def flatAll {α : Type} : List (List α) → List α
  | [] => []
  | l :: rest => l ++ flatAll rest

/-- Lookup in the association-list model of a sparse JS array. -/
def lookupIdx (a : List (Nat × SegmentMetadata)) (i : Nat) : Option SegmentMetadata :=
  match a with
  | [] => none
  | (j, v) :: rest => if j = i then some v else lookupIdx rest i

/-- JS array index assignment `a[i] = v` on the association-list model:
overwrite the slot if present, otherwise add it. -/
def arraySet (a : List (Nat × SegmentMetadata)) (i : Nat) (v : SegmentMetadata) :
    List (Nat × SegmentMetadata) :=
  match a with
  | [] => [(i, v)]
  | (j, w) :: rest => if j = i then (i, v) :: rest else (j, w) :: arraySet rest i v

/-- Sequencing the `segImages` cache lookups: dereferencing the first
`undefined` entry (`image.referencedImageId` at line 127) throws a
`TypeError`. -/
def seqImages : List (Option Image) → Except JSError (List Image)
  | [] => .ok []
  | none :: _ => .error .typeError
  | some img :: rest =>
    match seqImages rest with
    | .error e => .error e
    | .ok l => .ok (img :: l)

/-- Lines 133-152: one `labelmaps2D` entry for a slice image, a single pass
over its pixel buffer collecting the nonzero segment values. -/
def mkLabelmap2D (segImage : Image) : Labelmap2D :=
  { segmentsOnLabelmap := collectSegmentsOnLabelmap segImage.pixelData
    pixelData := segImage.pixelData
    rows := segImage.rows
    columns := segImage.columns }

/-- The constant tissue code sequence attached as both category and type. -/
def tissueCode : CodeSeq :=
  { CodeValue := "T-D0050", CodingSchemeDesignator := "SRT", CodeMeaning := "Tissue" }

/-- Lines 171-200: the metadata object for one present segment entry. -/
def mkSegmentMetadata (env : Env) (segmentationId : String) (firstRepresentation : SegRep)
    (segmentIndex : Nat) (segment : OhifSegment) : SegmentMetadata :=
  let color := env.getSegmentColor firstRepresentation.viewportId segmentationId
      segment.segmentIndex
  { SegmentNumber := toString segmentIndex
    SegmentLabel := segment.label
    SegmentAlgorithmType := jsOrStr segment.algorithmType "MANUAL"
    SegmentAlgorithmName := jsOrStr segment.algorithmName "OHIF Brush"
    RecommendedDisplayCIELabValue :=
      (env.rgb2DICOMLAB ((color.take 3).map (fun value => value / 255))).map jsRound
    SegmentedPropertyCategoryCodeSequence := tissueCode
    SegmentedPropertyTypeCodeSequence := tissueCode }

/-- Lines 165-202: the `forEach` over `Object.entries(segments)`.  A falsy
segment is skipped; otherwise `representations[0].viewportId` is read
(throwing a `TypeError` when there is no representation) and the metadata
slot `metadata[segmentIndex]` is assigned. -/
def buildMetadata (env : Env) (segmentationId : String) (reps : List SegRep) :
    List (Nat × Option OhifSegment) → List (Nat × SegmentMetadata) →
    Except JSError (List (Nat × SegmentMetadata))
  | [], acc => .ok acc
  | (_, none) :: rest, acc => buildMetadata env segmentationId reps rest acc
  | (segmentIndex, some segment) :: rest, acc =>
    match reps with
    | [] => .error .typeError
    | firstRepresentation :: _ =>
      buildMetadata env segmentationId reps rest
        (arraySet acc segmentIndex
          (mkSegmentMetadata env segmentationId firstRepresentation segmentIndex segment))

/-- Lines 122-202 of `generateSegmentation`: everything before the external
SEG adapter call — resolve the cornerstone segmentation, collect segment
sets slice by slice, build `labelmap3D` with its per-segment metadata, and
return it together with `referencedImages`. -/
def generateLabelmap3D (env : Env) (segmentationId : String) :
    Except JSError (List (Option Image) × Labelmap3D) :=
  match env.csSeg segmentationId with
  | none => .error .typeError
  | some segmentation =>
    match segmentation.labelmap with
    | none => .error .typeError
    | some labelmapData =>
      match seqImages (labelmapData.imageIds.map env.cacheImage) with
      | .error e => .error e
      | .ok segImages =>
        let referencedImages := segImages.map fun image => env.cacheImage image.referencedImageId
        let labelmaps2D := segImages.map mkLabelmap2D
        match env.ohifSeg segmentationId with
        | none => .error .typeError
        | some segmentationInOHIF =>
          match buildMetadata env segmentationId (env.representations segmentationId)
              segmentationInOHIF.segments [] with
          | .error e => .error e
          | .ok metadata =>
            .ok (referencedImages,
              { segmentsOnLabelmap :=
                  jsSetFrom (flatAll (labelmaps2D.map Labelmap2D.segmentsOnLabelmap))
                metadata := metadata
                labelmaps2D := labelmaps2D })

/-- Lines 121-212: the `generateSegmentation` action; delegates the final
encoding to the external SEG adapter and returns its result unmodified. -/
def generateSegmentationAction (env : Env) (segmentationId : String) (options : GenOptions) :
    Except JSError GeneratedSegmentation :=
  match generateLabelmap3D env segmentationId with
  | .error e => .error e
  | .ok (referencedImages, labelmap3D) =>
    .ok (env.adapterGenerate referencedImages labelmap3D options)

/-- Lines 223-230: the `downloadSegmentation` action.  The OHIF lookup result
is only dereferenced (for the file-name template string) after generation
succeeds. -/
def downloadSegmentationAction (env : Env) (segmentationId : String) :
    Except JSError DownloadOutcome :=
  let segmentationInOHIF := env.ohifSeg segmentationId
  match generateSegmentationAction env segmentationId {} with
  | .error e => .error e
  | .ok generatedSegmentation =>
    match segmentationInOHIF with
    | none => .error .typeError
    | some s =>
      .ok { dataset := generatedSegmentation.dataset, filename := jsTemplateOpt s.label }

/-- Lines 261-271: the inner `try` of the PDF action — an invalid or missing
cornerstone segmentation entry is rethrown as
`'Failed to load segmentation data'`. -/
def checkCsSegmentation : Option CsSegmentation → Except JSError Unit
  | none => .error (.errorMsg "Failed to load segmentation data")
  | some s =>
    match s.labelmap with
    | none => .error (.errorMsg "Failed to load segmentation data")
    | some _ => .ok ()

/-- Lines 253-370: the `downloadSegmentationPdf` action.  The outer
`try/catch` rethrows, so it is the identity on errors and is not modelled
separately. -/
def downloadSegmentationPdfAction (env : Env) (segmentationId : String)
    (viewportId : Option String) : Except JSError PdfOutcome :=
  match env.ohifSeg segmentationId with
  | none => .error (.errorMsg "Segmentation not found")
  | some segmentationInOHIF =>
    match checkCsSegmentation (env.csSeg segmentationId) with
    | .error e => .error e
    | .ok _ =>
      match env.dom (jsOrStr viewportId env.activeViewportId) with
      | none => .error (.errorMsg "Viewport element not found")
      | some viewportElement =>
        match env.html2canvas viewportElement with
        | .error e => .error e
        | .ok canvas =>
          let metadata :=
            match generateSegmentationAction env segmentationId {} with
            | .error _ => []
            | .ok generatedSegmentation => generatedSegmentation.metadata.getD []
          let segmentInfo :=
            if 0 < metadata.length then
              joinLines (metadata.map fun segment =>
                "- Segment " ++ segment.SegmentNumber ++ ": " ++ segment.SegmentLabel)
            else "No segment metadata available"
          let textContent := joinLines
            ["Segmentation: " ++ jsOrStr segmentationInOHIF.label "Unnamed Segmentation",
             "Segments: " ++ toString metadata.length,
             segmentInfo]
          .ok { page := { width := canvas.width, height := canvas.height,
                          image := canvas.png, text := textContent }
                downloadName := jsOrStr segmentationInOHIF.label "segmentation" ++ ".pdf" }

/-- Modelled from the spec: `generateRTSSFromSegmentations` is the external
RTSS adapter (not under `src/`), which "converts one or more segmentations
into a DICOM RT Structure Set".  Converting reads the segmentation object
passed to it, so an `undefined` segmentation raises a `TypeError` as any
JavaScript property access on `undefined` does; a present one yields a
dataset, abstracted by the environment's `rtssOf`. -/
def generateRTSSFromSegmentationsM (env : Env) (segmentations : Option OhifSegmentation) :
    Except JSError RTSS :=
  match segmentations with
  | none => .error .typeError
  | some s => .ok (env.rtssOf s)

/-- Lines 443-469: the `downloadRTSS` action.  The adapter call is outside
the `try`; serialization and navigation errors inside the `try` are caught
and only logged (`console.warn`). -/
def downloadRTSSAction (env : Env) (segmentationId : String) : Except JSError RTSSOutcome :=
  let segmentations := env.ohifSeg segmentationId
  match generateRTSSFromSegmentationsM env segmentations with
  | .error e => .error e
  | .ok rtssData =>
    match env.datasetToBlob rtssData with
    | .error _ => .ok { navigatedTo := none }
    | .ok reportBlob =>
      let objectUrl := env.createObjectURL reportBlob
      match env.locationAssign objectUrl with
      | .error _ => .ok { navigatedTo := none }
      | .ok _ => .ok { navigatedTo := some objectUrl }

/-- Modelled from the spec: `PROMPT_RESPONSES.CREATE_REPORT`, the
create-report response constant of the default extension's prompt module
(not under `src/`); the store action proceeds only on this response. -/
def PROMPT_CREATE_REPORT : Nat := 1

/-- Lines 405-407: `selectedDataSource ? getDataSources(selectedDataSource)[0]
: defaultDataSource`; an out-of-range `[0]` yields `undefined`. -/
def resolveSelectedConfig (env : Env) (defaultDataSource : DataSourceConfig) :
    Option DataSourceConfig :=
  if jsTruthy env.promptResult.dataSourceName then
    (env.getDataSources (env.promptResult.dataSourceName.getD "")).head?
  else some defaultDataSource

/-- Line 412: the generation options built by `storeSegmentation`:
`SeriesDescription: reportName || label || 'Research Derived Series'`. -/
def storeGenOptions (env : Env) (segmentation : OhifSegmentation) : GenOptions :=
  { SeriesDescription :=
      some (jsOrStr env.promptResult.value (jsOrStr segmentation.label "Research Derived Series")) }

/-- Lines 383-435: the `storeSegmentation` action.  When the prompt response
is not the create-report action the function falls through and returns
`undefined` with no effects.  The `catch` logs and rethrows, so errors
inside the `try` propagate unchanged. -/
def storeSegmentationAction (env : Env) (segmentationId : String)
    (dataSource : Option DataSourceConfig) : Except JSError StoreOutcome :=
  match env.ohifSeg segmentationId with
  | none => .error (.errorMsg "No segmentation found")
  | some segmentation =>
    let defaultDataSource := dataSource.getD env.activeDataSource
    if env.promptResult.action = PROMPT_CREATE_REPORT then
      let selectedDataSourceConfig := resolveSelectedConfig env defaultDataSource
      match generateSegmentationAction env segmentationId (storeGenOptions env segmentation) with
      | .error e => .error e
      | .ok generatedData =>
        match generatedData.dataset with
        | none => .error (.errorMsg "Error during segmentation generation")
        | some naturalizedReport =>
          match selectedDataSourceConfig with
          | none => .error .typeError
          | some cfg =>
            match cfg.store naturalizedReport with
            | .error e => .error e
            | .ok _ =>
              let augmented := { naturalizedReport with wadoRoot := some cfg.wadoRoot }
              .ok { returned := some augmented
                    storeCalls := [naturalizedReport]
                    metadataAdded := [augmented] }
    else
      .ok { returned := none, storeCalls := [], metadataAdded := [] }

/-- A brush-size configuration call made through
`segmentationUtils.setBrushSizeForToolGroup`: with no tool name it applies
to every tool of the tool group, with a tool name to that tool only. -/
inductive BrushCall where
  | allTools (toolGroupId : String) (size : Int)
  | oneTool (toolGroupId : String) (size : Int) (toolName : String)
deriving DecidableEq, Repr

/-- Lines 474-480: the calls made for one tool group id.  `toolNames?.length
=== 0` is true only for an explicitly empty array (`undefined === 0` is
false), and `toolNames?.forEach` on `undefined` does nothing. -/
def brushCallsFor (toolGroupId : String) (brushSize : Int) (toolNames : Option (List String)) :
    List BrushCall :=
  match toolNames with
  | some [] => [BrushCall.allTools toolGroupId brushSize]
  | some names => names.map (BrushCall.oneTool toolGroupId brushSize)
  | none => []

/-- Lines 470-482: the `setBrushSize` action, returning the list of
configuration calls performed.  `getToolGroupIds()?.forEach` on `undefined`
does nothing. -/
def setBrushSizeAction (toolGroupIds : Option (List String)) (value : Int)
    (toolNames : Option (List String)) : List BrushCall :=
  match toolGroupIds with
  | none => []
  | some ids => flatAll (ids.map fun toolGroupId => brushCallsFor toolGroupId value toolNames)

/-- A `toolGroup.setToolConfiguration(toolName, threshold.range)` call. -/
inductive ThresholdCall where
  | setConfig (toolGroupId : String) (toolName : String) (range : Int × Int)
deriving DecidableEq, Repr

/-- Lines 485-490: the destructuring default for `toolNames`. -/
def defaultThresholdToolNames : List String :=
  ["ThresholdCircularBrush", "ThresholdSphereBrush",
   "ThresholdCircularBrushDynamic", "ThresholdSphereBrushDynamic"]

/-- Lines 497-506: the loop body of `setThresholdRange`.  The tool group
object is only dereferenced inside the `forEach` callback, so an unknown
group id throws only when there is at least one tool name. -/
def thresholdLoop (getToolGroup : String → Option Unit) (toolNames : List String)
    (value : Int × Int) : List String → Except JSError (List ThresholdCall)
  | [] => .ok []
  | toolGroupId :: rest =>
    match toolNames, getToolGroup toolGroupId with
    | [], _ => thresholdLoop getToolGroup toolNames value rest
    | _ :: _, none => .error .typeError
    | _ :: _, some _ =>
      match thresholdLoop getToolGroup toolNames value rest with
      | .error e => .error e
      | .ok calls =>
        .ok ((toolNames.map fun toolName => ThresholdCall.setConfig toolGroupId toolName value)
          ++ calls)

/-- Lines 483-507: the `setThresholdRange` action, returning the
configuration calls performed.  It returns early when
`!toolGroupIds?.length`. -/
def setThresholdRangeAction (getToolGroup : String → Option Unit)
    (toolGroupIds : Option (List String)) (value : Int × Int)
    (toolNames : Option (List String)) : Except JSError (List ThresholdCall) :=
  let tns := toolNames.getD defaultThresholdToolNames
  match toolGroupIds with
  | none => .ok []
  | some [] => .ok []
  | some ids => thresholdLoop getToolGroup tns value ids

/-- Sample slice image with pixel buffer `[0, 1, 1, 2]`. -/
def imgA : Image :=
  { pixelData := [0, 1, 1, 2], rows := 2, columns := 2, referencedImageId := "r1" }

/-- Sample referenced (source) image. -/
def refImgA : Image :=
  { pixelData := [5, 5, 5, 5], rows := 2, columns := 2, referencedImageId := "" }

/-- Sample all-zero slice image. -/
def imgZ : Image :=
  { pixelData := [0, 0, 0, 0], rows := 2, columns := 2, referencedImageId := "r1" }

/-- Sample OHIF segment. -/
def segA : OhifSegment :=
  { segmentIndex := 1, label := "Segment 1", algorithmType := none, algorithmName := none }

/-- Sample OHIF segmentation entry. -/
def ohifSegA : OhifSegmentation :=
  { label := some "SegLabel", segments := [(1, some segA)] }

/-- Sample cornerstone segmentation state entry. -/
def csSegA : CsSegmentation :=
  { labelmap := some { imageIds := ["i1"] } }

/-- Sample dataset returned by the SEG adapter. -/
def dsA : Dataset := { tag := 7, wadoRoot := none }

/-- Sample adapter result. -/
def genA : GeneratedSegmentation := { dataset := some dsA, metadata := some [] }

/-- Sample data source whose store call succeeds. -/
def cfgA : DataSourceConfig := { store := fun _ => .ok (), wadoRoot := "wadoRootA" }

/-- Sample capture result. -/
def canvasA : Canvas := { width := 100, height := 50, png := "pngdata" }

/-- Sample fully-working environment: one segmentation `"s"` with one slice
`"i1"` referencing `"r1"`, one representation on viewport `"vp1"`, a prompt
answered with the create-report action, and a succeeding data source. -/
def envA : Env :=
  { csSeg := fun s => if s = "s" then some csSegA else none
    ohifSeg := fun s => if s = "s" then some ohifSegA else none
    cacheImage := fun s =>
      if s = "i1" then some imgA else if s = "r1" then some refImgA else none
    representations := fun s => if s = "s" then [{ viewportId := "vp1" }] else []
    getSegmentColor := fun _ _ _ => [255, 0, 0, 255]
    rgb2DICOMLAB := fun _ => []
    adapterGenerate := fun _ _ _ => genA
    activeViewportId := "vp1"
    dom := fun s => if s = "vp1" then some "el1" else none
    html2canvas := fun _ => .ok canvasA
    rtssOf := fun _ => { tag := 3 }
    datasetToBlob := fun _ => .ok { tag := 4 }
    createObjectURL := fun _ => "blob:url"
    locationAssign := fun _ => .ok ()
    activeDataSource := cfgA
    getDataSources := fun _ => []
    promptResult := { value := none, dataSourceName := none, action := PROMPT_CREATE_REPORT } }

/-- The metadata entry `generateSegmentation` builds for `segA` in `envA`. -/
def mdA : SegmentMetadata :=
  mkSegmentMetadata envA "s" { viewportId := "vp1" } 1 segA

/-- The per-slice entry for `imgA`. -/
def lm2A : Labelmap2D := mkLabelmap2D imgA

/-- The `labelmap3D` value built by `generateLabelmap3D envA "s"`. -/
def lm3A : Labelmap3D :=
  { segmentsOnLabelmap := [1, 2], metadata := [(1, mdA)], labelmaps2D := [lm2A] }

/-- `envA` with the slice replaced by the all-zero image. -/
def envZero : Env :=
  { envA with cacheImage := fun s =>
      if s = "i1" then some imgZ else if s = "r1" then some refImgA else none }

/-- The metadata entry built in `envZero`. -/
def mdZ : SegmentMetadata :=
  mkSegmentMetadata envZero "s" { viewportId := "vp1" } 1 segA

/-- The per-slice entry for the all-zero image. -/
def lm2Z : Labelmap2D := mkLabelmap2D imgZ

/-- The `labelmap3D` value built by `generateLabelmap3D envZero "s"`. -/
def lm3Z : Labelmap3D :=
  { segmentsOnLabelmap := [], metadata := [(1, mdZ)], labelmaps2D := [lm2Z] }

/-- `envA` with an empty image cache, so generation fails while the PDF
action's earlier checks still pass. -/
def envGenFail : Env := { envA with cacheImage := fun _ => none }

/-- `envA` with no resolvable viewport element. -/
def envNoVp : Env := { envA with dom := fun _ => none }

/-- `envA` whose screen capture fails. -/
def envCapFail : Env :=
  { envA with html2canvas := fun _ => .error (.errorMsg "capture failed") }

/-- `envA` whose prompt is answered with a non-create-report action. -/
def envCancel : Env :=
  { envA with promptResult := { value := none, dataSourceName := none, action := 2 } }

/-- `envA` whose RTSS serialization fails. -/
def envBlobFail : Env :=
  { envA with datasetToBlob := fun _ => .error (.errorMsg "serialize failed") }

/-- `envA` whose navigation call fails. -/
def envNavFail : Env :=
  { envA with locationAssign := fun _ => .error (.errorMsg "nav failed") }

theorem mem_jsSetAdd (s : List Nat) (v x : Nat) : x ∈ jsSetAdd s v ↔ x ∈ s ∨ x = v := by
  unfold jsSetAdd
  split
  · next hv =>
    constructor
    · exact Or.inl
    · rintro (hx | rfl)
      · exact hx
      · exact hv
  · simp [List.mem_append]

theorem nodup_jsSetAdd (s : List Nat) (v : Nat) (h : s.Nodup) : (jsSetAdd s v).Nodup := by
  unfold jsSetAdd
  split
  · exact h
  · next hv =>
    refine List.Nodup.append h (List.nodup_singleton v) ?_
    intro a ha hav
    rw [List.mem_singleton] at hav
    subst hav
    exact hv ha

theorem mem_foldl_collectStep (p : List Nat) : ∀ (s : List Nat) (x : Nat),
    x ∈ p.foldl collectStep s ↔ x ∈ s ∨ (x ∈ p ∧ x ≠ 0) := by
  induction p with
  | nil => intro s x; simp
  | cons v rest ih =>
    intro s x
    rw [List.foldl_cons, ih]
    unfold collectStep
    by_cases hv : v = 0
    · subst hv
      rw [if_neg (by simp)]
      constructor
      · rintro (h | ⟨h1, h2⟩)
        · exact Or.inl h
        · exact Or.inr ⟨List.mem_cons_of_mem _ h1, h2⟩
      · rintro (h | ⟨h1, h2⟩)
        · exact Or.inl h
        · rcases List.mem_cons.mp h1 with rfl | h1
          · exact absurd rfl h2
          · exact Or.inr ⟨h1, h2⟩
    · rw [if_pos hv, mem_jsSetAdd]
      constructor
      · rintro ((h | rfl) | ⟨h1, h2⟩)
        · exact Or.inl h
        · exact Or.inr ⟨List.mem_cons_self _ _, hv⟩
        · exact Or.inr ⟨List.mem_cons_of_mem _ h1, h2⟩
      · rintro (h | ⟨h1, h2⟩)
        · exact Or.inl (Or.inl h)
        · rcases List.mem_cons.mp h1 with rfl | h1
          · exact Or.inl (Or.inr rfl)
          · exact Or.inr ⟨h1, h2⟩

theorem nodup_foldl_collectStep (p : List Nat) :
    ∀ s : List Nat, s.Nodup → (p.foldl collectStep s).Nodup := by
  induction p with
  | nil => intro s h; simpa using h
  | cons v rest ih =>
    intro s h
    rw [List.foldl_cons]
    apply ih
    unfold collectStep
    split
    · exact nodup_jsSetAdd s v h
    · exact h

theorem mem_collectSegmentsOnLabelmap (p : List Nat) (x : Nat) :
    x ∈ collectSegmentsOnLabelmap p ↔ x ∈ p ∧ x ≠ 0 := by
  unfold collectSegmentsOnLabelmap
  rw [mem_foldl_collectStep]
  simp

theorem nodup_collectSegmentsOnLabelmap (p : List Nat) :
    (collectSegmentsOnLabelmap p).Nodup :=
  nodup_foldl_collectStep p [] List.nodup_nil

theorem collectSegmentsOnLabelmap_eq_nil (p : List Nat) (h : ∀ v ∈ p, v = 0) :
    collectSegmentsOnLabelmap p = [] := by
  rw [List.eq_nil_iff_forall_not_mem]
  intro x hx
  rw [mem_collectSegmentsOnLabelmap] at hx
  exact hx.2 (h x hx.1)

theorem mem_foldl_jsSetAdd (l : List Nat) :
    ∀ (s : List Nat) (x : Nat), x ∈ l.foldl jsSetAdd s ↔ x ∈ s ∨ x ∈ l := by
  induction l with
  | nil => intro s x; simp
  | cons v rest ih =>
    intro s x
    rw [List.foldl_cons, ih, mem_jsSetAdd, List.mem_cons]
    tauto

theorem mem_jsSetFrom (l : List Nat) (x : Nat) : x ∈ jsSetFrom l ↔ x ∈ l := by
  unfold jsSetFrom
  rw [mem_foldl_jsSetAdd]
  simp

theorem nodup_foldl_jsSetAdd (l : List Nat) :
    ∀ s : List Nat, s.Nodup → (l.foldl jsSetAdd s).Nodup := by
  induction l with
  | nil => intro s h; simpa using h
  | cons v rest ih =>
    intro s h
    rw [List.foldl_cons]
    exact ih _ (nodup_jsSetAdd s v h)

theorem nodup_jsSetFrom (l : List Nat) : (jsSetFrom l).Nodup :=
  nodup_foldl_jsSetAdd l [] List.nodup_nil

theorem mem_flatAll {α : Type} (ls : List (List α)) (x : α) :
    x ∈ flatAll ls ↔ ∃ l ∈ ls, x ∈ l := by
  induction ls with
  | nil => simp [flatAll]
  | cons l rest ih => simp [flatAll, List.mem_append, ih]

theorem flatAll_map_const_nil {α β : Type} (l : List α) :
    flatAll (l.map fun _ => ([] : List β)) = [] := by
  induction l with
  | nil => rfl
  | cons a rest ih => simpa [flatAll] using ih

theorem flatAll_map_singleton {α β : Type} (l : List α) (f : α → β) :
    flatAll (l.map fun a => [f a]) = l.map f := by
  induction l with
  | nil => rfl
  | cons a rest ih => simp [flatAll, ih]

theorem stringAppendAssoc (a b c : String) : a ++ b ++ c = a ++ (b ++ c) := by
  rcases a with ⟨la⟩
  rcases b with ⟨lb⟩
  rcases c with ⟨lc⟩
  show String.mk (la ++ lb ++ lc) = String.mk (la ++ (lb ++ lc))
  rw [List.append_assoc]

theorem joinLines_three (a b c : String) :
    joinLines [a, b, c] = (a ++ "\n" ++ (b ++ "\n")) ++ c := by
  show a ++ "\n" ++ (b ++ "\n" ++ c) = _
  rw [stringAppendAssoc (a ++ "\n") (b ++ "\n") c, stringAppendAssoc b "\n" c]

theorem lookupIdx_arraySet_self (a : List (Nat × SegmentMetadata)) (i : Nat)
    (v : SegmentMetadata) : lookupIdx (arraySet a i v) i = some v := by
  induction a with
  | nil => simp [arraySet, lookupIdx]
  | cons hd rest ih =>
    obtain ⟨j, w⟩ := hd
    unfold arraySet
    by_cases h : j = i
    · subst h
      rw [if_pos rfl]
      simp [lookupIdx]
    · rw [if_neg h]
      unfold lookupIdx
      rw [if_neg h]
      exact ih

theorem lookupIdx_arraySet_ne (a : List (Nat × SegmentMetadata)) (i k : Nat)
    (v : SegmentMetadata) (h : i ≠ k) : lookupIdx (arraySet a i v) k = lookupIdx a k := by
  induction a with
  | nil => simp [arraySet, lookupIdx, h]
  | cons hd rest ih =>
    obtain ⟨j, w⟩ := hd
    unfold arraySet
    by_cases hj : j = i
    · subst hj
      rw [if_pos rfl]
      unfold lookupIdx
      rw [if_neg h, if_neg h]
    · rw [if_neg hj]
      unfold lookupIdx
      by_cases hjk : j = k
      · rw [if_pos hjk, if_pos hjk]
      · rw [if_neg hjk, if_neg hjk]
        exact ih

theorem buildMetadata_lookup_notmem (env : Env) (segId : String) (rep : SegRep)
    (rest' : List SegRep) :
    ∀ (entries : List (Nat × Option OhifSegment)) (acc : List (Nat × SegmentMetadata))
      (md : List (Nat × SegmentMetadata)) (k : Nat),
    k ∉ entries.map Prod.fst →
    buildMetadata env segId (rep :: rest') entries acc = .ok md →
    lookupIdx md k = lookupIdx acc k := by
  intro entries
  induction entries with
  | nil =>
    intro acc md k _ h
    simp only [buildMetadata] at h
    cases h
    rfl
  | cons e tail ih =>
    obtain ⟨j, oseg⟩ := e
    intro acc md k hk h
    have hjk : j ≠ k := by
      intro hc
      exact hk (by simp [hc])
    have hk' : k ∉ tail.map Prod.fst := by
      intro hc
      exact hk (by simp [hc])
    cases oseg with
    | none =>
      simp only [buildMetadata] at h
      exact ih acc md k hk' h
    | some seg =>
      simp only [buildMetadata] at h
      rw [ih _ md k hk' h, lookupIdx_arraySet_ne _ j k _ hjk]

theorem buildMetadata_lookup (env : Env) (segId : String) (rep : SegRep)
    (rest' : List SegRep) :
    ∀ (entries : List (Nat × Option OhifSegment)) (acc : List (Nat × SegmentMetadata))
      (md : List (Nat × SegmentMetadata)) (k : Nat) (seg : OhifSegment),
    (entries.map Prod.fst).Nodup →
    (k, some seg) ∈ entries →
    buildMetadata env segId (rep :: rest') entries acc = .ok md →
    lookupIdx md k = some (mkSegmentMetadata env segId rep k seg) := by
  intro entries
  induction entries with
  | nil =>
    intro acc md k seg _ hmem
    simp at hmem
  | cons e tail ih =>
    obtain ⟨j, oseg⟩ := e
    intro acc md k seg hnd hmem h
    rw [List.map_cons, List.nodup_cons] at hnd
    rcases List.mem_cons.mp hmem with heq | hmem'
    · rw [Prod.mk.injEq] at heq
      obtain ⟨h1, h2⟩ := heq
      subst h1
      subst h2
      simp only [buildMetadata] at h
      rw [buildMetadata_lookup_notmem env segId rep rest' tail _ md k hnd.1 h,
          lookupIdx_arraySet_self]
    · cases oseg with
      | none =>
        simp only [buildMetadata] at h
        exact ih acc md k seg hnd.2 hmem' h
      | some s2 =>
        simp only [buildMetadata] at h
        exact ih _ md k seg hnd.2 hmem' h

theorem generateLabelmap3D_inv (env : Env) (segId : String) (refs : List (Option Image))
    (lm3 : Labelmap3D) (h : generateLabelmap3D env segId = .ok (refs, lm3)) :
    (∃ segImages : List Image, lm3.labelmaps2D = segImages.map mkLabelmap2D) ∧
    lm3.segmentsOnLabelmap =
      jsSetFrom (flatAll (lm3.labelmaps2D.map Labelmap2D.segmentsOnLabelmap)) ∧
    ∀ s, env.ohifSeg segId = some s →
      buildMetadata env segId (env.representations segId) s.segments [] = .ok lm3.metadata := by
  unfold generateLabelmap3D at h
  split at h
  next hcs => exact Except.noConfusion h
  next segmentation hcs =>
  split at h
  next hlm => exact Except.noConfusion h
  next labelmapData hlm =>
  split at h
  next e hsi => exact Except.noConfusion h
  next segImages hsi =>
  split at h
  next hoh => exact Except.noConfusion h
  next segmentationInOHIF hoh =>
  split at h
  next e hbm => exact Except.noConfusion h
  next metadata hbm =>
  simp only [Except.ok.injEq, Prod.mk.injEq] at h
  obtain ⟨hrefs, hlm3⟩ := h
  subst hlm3
  refine ⟨⟨segImages, rfl⟩, rfl, ?_⟩
  intro s hs
  rw [hoh] at hs
  injection hs with hs'
  subst hs'
  exact hbm

/-- C1: for every slice iterated by `generateSegmentation`, the per-slice
`segmentsOnLabelmap` it records equals exactly the set of distinct nonzero
values occurring in that slice's `pixelData` buffer: a value is in the set
iff it occurs in the buffer and is nonzero (so zero never appears and no
absent value appears), and the set is duplicate-free. -/
theorem claim_c1_slice_segments (env : Env) (segId : String) (refs : List (Option Image))
    (lm3 : Labelmap3D) (lm : Labelmap2D)
    (hok : generateLabelmap3D env segId = .ok (refs, lm3))
    (hlm : lm ∈ lm3.labelmaps2D) :
    (∀ v, v ∈ lm.segmentsOnLabelmap ↔ v ∈ lm.pixelData ∧ v ≠ 0) ∧
    lm.segmentsOnLabelmap.Nodup := by
  obtain ⟨⟨segImages, hmap⟩, -, -⟩ := generateLabelmap3D_inv env segId refs lm3 hok
  rw [hmap] at hlm
  obtain ⟨img, -, rfl⟩ := List.mem_map.mp hlm
  exact ⟨fun v => mem_collectSegmentsOnLabelmap img.pixelData v,
    nodup_collectSegmentsOnLabelmap img.pixelData⟩

/-- Witness for C1 on the concrete environment `envA` (slice `[0, 1, 1, 2]`). -/
theorem claim_c1_witness :
    generateLabelmap3D envA "s" = .ok ([some refImgA], lm3A) ∧
    lm2A ∈ lm3A.labelmaps2D ∧
    ((∀ v, v ∈ lm2A.segmentsOnLabelmap ↔ v ∈ lm2A.pixelData ∧ v ≠ 0) ∧
      lm2A.segmentsOnLabelmap.Nodup) :=
  ⟨rfl, List.mem_singleton.mpr rfl,
    claim_c1_slice_segments envA "s" [some refImgA] lm3A lm2A rfl (List.mem_singleton.mpr rfl)⟩

/-- C2: the volume-level `segmentsOnLabelmap` equals, as a duplicate-free
set, the union of the per-slice sets; in particular it is empty when no
slice contains a nonzero pixel value. -/
theorem claim_c2_volume_segments (env : Env) (segId : String) (refs : List (Option Image))
    (lm3 : Labelmap3D) (hok : generateLabelmap3D env segId = .ok (refs, lm3)) :
    (∀ v, v ∈ lm3.segmentsOnLabelmap ↔ ∃ lm ∈ lm3.labelmaps2D, v ∈ lm.segmentsOnLabelmap) ∧
    lm3.segmentsOnLabelmap.Nodup ∧
    ((∀ lm ∈ lm3.labelmaps2D, ∀ v ∈ lm.pixelData, v = 0) → lm3.segmentsOnLabelmap = []) := by
  obtain ⟨⟨segImages, hmap⟩, hvol, -⟩ := generateLabelmap3D_inv env segId refs lm3 hok
  refine ⟨?_, ?_, ?_⟩
  · intro v
    rw [hvol, mem_jsSetFrom, mem_flatAll]
    constructor
    · rintro ⟨l, hl, hv⟩
      obtain ⟨lm, hlm, rfl⟩ := List.mem_map.mp hl
      exact ⟨lm, hlm, hv⟩
    · rintro ⟨lm, hlm, hv⟩
      exact ⟨lm.segmentsOnLabelmap, List.mem_map.mpr ⟨lm, hlm, rfl⟩, hv⟩
  · rw [hvol]
    exact nodup_jsSetFrom _
  · intro hzero
    rw [hvol, List.eq_nil_iff_forall_not_mem]
    intro v hv
    rw [mem_jsSetFrom, mem_flatAll] at hv
    obtain ⟨l, hl, hvl⟩ := hv
    obtain ⟨lm, hlm, rfl⟩ := List.mem_map.mp hl
    have hlm2 := hlm
    rw [hmap] at hlm2
    obtain ⟨img, -, hlmeq⟩ := List.mem_map.mp hlm2
    have hmem : v ∈ lm.pixelData ∧ v ≠ 0 := by
      rw [← hlmeq] at hvl ⊢
      exact (mem_collectSegmentsOnLabelmap img.pixelData v).mp hvl
    exact hmem.2 (hzero lm hlm v hmem.1)

/-- Witness for C2 on the all-zero environment `envZero` (slice
`[0, 0, 0, 0]`), where the volume-level set is indeed empty. -/
theorem claim_c2_witness :
    generateLabelmap3D envZero "s" = .ok ([some refImgA], lm3Z) ∧
    ((∀ v, v ∈ lm3Z.segmentsOnLabelmap ↔ ∃ lm ∈ lm3Z.labelmaps2D, v ∈ lm.segmentsOnLabelmap) ∧
     lm3Z.segmentsOnLabelmap.Nodup ∧
     ((∀ lm ∈ lm3Z.labelmaps2D, ∀ v ∈ lm.pixelData, v = 0) → lm3Z.segmentsOnLabelmap = [])) :=
  ⟨rfl, claim_c2_volume_segments envZero "s" [some refImgA] lm3Z rfl⟩

/-- C3: when neither segmentation registry knows the identifier,
`generateSegmentation` throws (a `TypeError` from dereferencing the
`undefined` state entry), and each download action throws as well:
`downloadSegmentation` via the failed generation, `downloadSegmentationPdf`
with `'Segmentation not found'`, and `downloadRTSS` from the RTSS adapter
dereferencing an `undefined` segmentation. -/
theorem claim_c3_unknown_id_throws (env : Env) (segId : String)
    (hcs : env.csSeg segId = none) (hoh : env.ohifSeg segId = none) :
    (∀ options, generateSegmentationAction env segId options = .error .typeError) ∧
    downloadSegmentationAction env segId = .error .typeError ∧
    (∀ viewportId, downloadSegmentationPdfAction env segId viewportId =
      .error (.errorMsg "Segmentation not found")) ∧
    downloadRTSSAction env segId = .error .typeError := by
  have hgen : generateLabelmap3D env segId = .error .typeError := by
    unfold generateLabelmap3D
    rw [hcs]
  refine ⟨?_, ?_, ?_, ?_⟩
  · intro options
    unfold generateSegmentationAction
    rw [hgen]
  · unfold downloadSegmentationAction generateSegmentationAction
    rw [hgen]
  · intro viewportId
    unfold downloadSegmentationPdfAction
    rw [hoh]
  · unfold downloadRTSSAction generateRTSSFromSegmentationsM
    rw [hoh]

/-- Witness for C3 at the unknown identifier `"zzz"` in `envA`. -/
theorem claim_c3_witness :
    envA.csSeg "zzz" = none ∧ envA.ohifSeg "zzz" = none ∧
    ((∀ options, generateSegmentationAction envA "zzz" options = .error .typeError) ∧
     downloadSegmentationAction envA "zzz" = .error .typeError ∧
     (∀ viewportId, downloadSegmentationPdfAction envA "zzz" viewportId =
       .error (.errorMsg "Segmentation not found")) ∧
     downloadRTSSAction envA "zzz" = .error .typeError) :=
  ⟨rfl, rfl, claim_c3_unknown_id_throws envA "zzz" rfl rfl⟩

/-- C4: when the segmentation is found, the cornerstone state entry is
valid, the viewport element resolves, and the capture succeeds, but the
internal generation call throws, the PDF action still completes with a
single page embedding the captured image, and its text block contains the
exact string `'No segment metadata available'`. -/
theorem claim_c4_pdf_tolerates_generation_failure (env : Env) (segId : String)
    (viewportId : Option String) (s : OhifSegmentation) (cs : CsSegmentation)
    (lmd : LabelmapData) (el : String) (canvas : Canvas) (e : JSError)
    (h1 : env.ohifSeg segId = some s)
    (h2 : env.csSeg segId = some cs)
    (h3 : cs.labelmap = some lmd)
    (h4 : env.dom (jsOrStr viewportId env.activeViewportId) = some el)
    (h5 : env.html2canvas el = .ok canvas)
    (h6 : generateSegmentationAction env segId {} = .error e) :
    downloadSegmentationPdfAction env segId viewportId =
      .ok { page := { width := canvas.width, height := canvas.height, image := canvas.png
                      text := joinLines
                        ["Segmentation: " ++ jsOrStr s.label "Unnamed Segmentation",
                         "Segments: 0", "No segment metadata available"] }
            downloadName := jsOrStr s.label "segmentation" ++ ".pdf" } ∧
    (∃ pre, joinLines ["Segmentation: " ++ jsOrStr s.label "Unnamed Segmentation",
        "Segments: 0", "No segment metadata available"] =
      pre ++ "No segment metadata available") := by
  have hchk : checkCsSegmentation (env.csSeg segId) = .ok () := by
    rw [h2]
    simp only [checkCsSegmentation]
    rw [h3]
  constructor
  · simp only [downloadSegmentationPdfAction, h1, hchk, h4, h5, h6]
    rfl
  · exact ⟨_, joinLines_three _ _ _⟩

/-- Witness for C4 on `envGenFail`, whose empty image cache makes the
generation step throw while capture succeeds. -/
theorem claim_c4_witness :
    envGenFail.ohifSeg "s" = some ohifSegA ∧
    envGenFail.csSeg "s" = some csSegA ∧
    csSegA.labelmap = some { imageIds := ["i1"] } ∧
    envGenFail.dom (jsOrStr none envGenFail.activeViewportId) = some "el1" ∧
    envGenFail.html2canvas "el1" = .ok canvasA ∧
    generateSegmentationAction envGenFail "s" {} = .error .typeError ∧
    (downloadSegmentationPdfAction envGenFail "s" none =
      .ok { page := { width := canvasA.width, height := canvasA.height, image := canvasA.png
                      text := joinLines
                        ["Segmentation: " ++ jsOrStr ohifSegA.label "Unnamed Segmentation",
                         "Segments: 0", "No segment metadata available"] }
            downloadName := jsOrStr ohifSegA.label "segmentation" ++ ".pdf" } ∧
     (∃ pre, joinLines ["Segmentation: " ++ jsOrStr ohifSegA.label "Unnamed Segmentation",
         "Segments: 0", "No segment metadata available"] =
       pre ++ "No segment metadata available")) :=
  ⟨rfl, rfl, rfl, rfl, rfl, rfl,
    claim_c4_pdf_tolerates_generation_failure envGenFail "s" none ohifSegA csSegA
      { imageIds := ["i1"] } "el1" canvasA .typeError rfl rfl rfl rfl rfl rfl⟩

/-- C5: with the segmentation found and the cornerstone entry valid, the
PDF action aborts by throwing — producing no PDF and no download — both
when no viewport element resolves and when the screen capture fails. -/
theorem claim_c5_pdf_aborts (env : Env) (segId : String) (viewportId : Option String)
    (s : OhifSegmentation) (cs : CsSegmentation) (lmd : LabelmapData)
    (h1 : env.ohifSeg segId = some s)
    (h2 : env.csSeg segId = some cs)
    (h3 : cs.labelmap = some lmd) :
    (env.dom (jsOrStr viewportId env.activeViewportId) = none →
      downloadSegmentationPdfAction env segId viewportId =
        .error (.errorMsg "Viewport element not found")) ∧
    (∀ el e, env.dom (jsOrStr viewportId env.activeViewportId) = some el →
      env.html2canvas el = .error e →
      downloadSegmentationPdfAction env segId viewportId = .error e) := by
  have hchk : checkCsSegmentation (env.csSeg segId) = .ok () := by
    rw [h2]
    simp only [checkCsSegmentation]
    rw [h3]
  constructor
  · intro h4
    simp only [downloadSegmentationPdfAction, h1, hchk, h4]
  · intro el e h4 h5
    simp only [downloadSegmentationPdfAction, h1, hchk, h4, h5]

/-- Witness for C5 on `envNoVp` (no viewport element) and `envCapFail`
(failing capture). -/
theorem claim_c5_witness :
    (envNoVp.ohifSeg "s" = some ohifSegA ∧
     envNoVp.csSeg "s" = some csSegA ∧
     csSegA.labelmap = some { imageIds := ["i1"] } ∧
     envNoVp.dom (jsOrStr none envNoVp.activeViewportId) = none ∧
     downloadSegmentationPdfAction envNoVp "s" none =
       .error (.errorMsg "Viewport element not found")) ∧
    (envCapFail.ohifSeg "s" = some ohifSegA ∧
     envCapFail.csSeg "s" = some csSegA ∧
     envCapFail.dom (jsOrStr none envCapFail.activeViewportId) = some "el1" ∧
     envCapFail.html2canvas "el1" = .error (.errorMsg "capture failed") ∧
     downloadSegmentationPdfAction envCapFail "s" none =
       .error (.errorMsg "capture failed")) :=
  ⟨⟨rfl, rfl, rfl, rfl,
    (claim_c5_pdf_aborts envNoVp "s" none ohifSegA csSegA { imageIds := ["i1"] }
      rfl rfl rfl).1 rfl⟩,
   ⟨rfl, rfl, rfl, rfl,
    (claim_c5_pdf_aborts envCapFail "s" none ohifSegA csSegA { imageIds := ["i1"] }
      rfl rfl rfl).2 "el1" (.errorMsg "capture failed") rfl rfl⟩⟩

/-- C6: with the segmentation found and the prompt answered with the
create-report action, a successful store returns the generated dataset
augmented with the selected data source's configured `wadoRoot` and records
that instance in the DICOM metadata store, while a failure of generation or
of the backend store call is propagated unchanged. -/
theorem claim_c6_store_result (env : Env) (segId : String)
    (dataSource : Option DataSourceConfig) (segmentation : OhifSegmentation)
    (cfg : DataSourceConfig)
    (h1 : env.ohifSeg segId = some segmentation)
    (h2 : env.promptResult.action = PROMPT_CREATE_REPORT)
    (h3 : resolveSelectedConfig env (dataSource.getD env.activeDataSource) = some cfg) :
    (∀ g ds, generateSegmentationAction env segId (storeGenOptions env segmentation) = .ok g →
      g.dataset = some ds → cfg.store ds = .ok () →
      storeSegmentationAction env segId dataSource =
        .ok { returned := some { ds with wadoRoot := some cfg.wadoRoot }
              storeCalls := [ds]
              metadataAdded := [{ ds with wadoRoot := some cfg.wadoRoot }] }) ∧
    (∀ e, generateSegmentationAction env segId (storeGenOptions env segmentation) = .error e →
      storeSegmentationAction env segId dataSource = .error e) ∧
    (∀ g ds e, generateSegmentationAction env segId (storeGenOptions env segmentation) = .ok g →
      g.dataset = some ds → cfg.store ds = .error e →
      storeSegmentationAction env segId dataSource = .error e) := by
  refine ⟨?_, ?_, ?_⟩
  · intro g ds hg hds hst
    simp only [storeSegmentationAction, h1, h2, h3, hg, hds, hst, if_true, eq_self_iff_true]
  · intro e hg
    simp only [storeSegmentationAction, h1, h2, h3, hg, if_true, eq_self_iff_true]
  · intro g ds e hg hds hst
    simp only [storeSegmentationAction, h1, h2, h3, hg, hds, hst, if_true, eq_self_iff_true]

/-- Witness for C6 on `envA`, whose store call succeeds. -/
theorem claim_c6_witness :
    envA.ohifSeg "s" = some ohifSegA ∧
    envA.promptResult.action = PROMPT_CREATE_REPORT ∧
    resolveSelectedConfig envA ((none : Option DataSourceConfig).getD envA.activeDataSource) =
      some cfgA ∧
    generateSegmentationAction envA "s" (storeGenOptions envA ohifSegA) = .ok genA ∧
    genA.dataset = some dsA ∧
    cfgA.store dsA = .ok () ∧
    storeSegmentationAction envA "s" none =
      .ok { returned := some { tag := 7, wadoRoot := some "wadoRootA" }
            storeCalls := [dsA]
            metadataAdded := [{ tag := 7, wadoRoot := some "wadoRootA" }] } :=
  ⟨rfl, rfl, rfl, rfl, rfl, rfl,
    (claim_c6_store_result envA "s" none ohifSegA cfgA rfl rfl rfl).1 genA dsA rfl rfl rfl⟩

/-- C7: for every present segment entry, the metadata attached by
`generateSegmentation` carries the segment's label, its algorithm type and
name defaulted to `'MANUAL'` and `'OHIF Brush'`, a
`RecommendedDisplayCIELabValue` obtained by rounding each component of the
CIE-Lab conversion of the display color scaled from 0-255 to 0-1, and the
constant tissue category and type code sequences. -/
theorem claim_c7_segment_metadata (env : Env) (segId : String) (refs : List (Option Image))
    (lm3 : Labelmap3D) (s : OhifSegmentation) (rep : SegRep) (reps' : List SegRep)
    (segmentIndex : Nat) (segment : OhifSegment)
    (h1 : env.ohifSeg segId = some s)
    (h2 : env.representations segId = rep :: reps')
    (h3 : (s.segments.map Prod.fst).Nodup)
    (h4 : (segmentIndex, some segment) ∈ s.segments)
    (h5 : generateLabelmap3D env segId = .ok (refs, lm3)) :
    lookupIdx lm3.metadata segmentIndex = some
      { SegmentNumber := toString segmentIndex
        SegmentLabel := segment.label
        SegmentAlgorithmType := jsOrStr segment.algorithmType "MANUAL"
        SegmentAlgorithmName := jsOrStr segment.algorithmName "OHIF Brush"
        RecommendedDisplayCIELabValue :=
          (env.rgb2DICOMLAB
            (((env.getSegmentColor rep.viewportId segId segment.segmentIndex).take 3).map
              (fun value => value / 255))).map jsRound
        SegmentedPropertyCategoryCodeSequence := tissueCode
        SegmentedPropertyTypeCodeSequence := tissueCode } := by
  obtain ⟨-, -, hmd⟩ := generateLabelmap3D_inv env segId refs lm3 h5
  have hbm := hmd s h1
  rw [h2] at hbm
  exact buildMetadata_lookup env segId rep reps' s.segments [] lm3.metadata
    segmentIndex segment h3 h4 hbm

/-- Witness for C7 on `envA` (segment 1, defaults applied, sample
converter returning an empty component list). -/
theorem claim_c7_witness :
    envA.ohifSeg "s" = some ohifSegA ∧
    envA.representations "s" = [{ viewportId := "vp1" }] ∧
    (ohifSegA.segments.map Prod.fst).Nodup ∧
    (1, some segA) ∈ ohifSegA.segments ∧
    generateLabelmap3D envA "s" = .ok ([some refImgA], lm3A) ∧
    lookupIdx lm3A.metadata 1 = some
      { SegmentNumber := "1"
        SegmentLabel := "Segment 1"
        SegmentAlgorithmType := "MANUAL"
        SegmentAlgorithmName := "OHIF Brush"
        RecommendedDisplayCIELabValue := []
        SegmentedPropertyCategoryCodeSequence := tissueCode
        SegmentedPropertyTypeCodeSequence := tissueCode } :=
  ⟨rfl, rfl, by decide, by decide, rfl,
    claim_c7_segment_metadata envA "s" [some refImgA] lm3A ohifSegA
      { viewportId := "vp1" } [] 1 segA rfl rfl (by decide) (by decide) rfl⟩

/-- C8: `setBrushSize` issues whole-tool-group (every-tool) calls exactly
when `toolNames` is an explicitly empty array, issues per-tool calls for a
nonempty array, performs no configuration call at all when `toolNames` is
omitted, and both `setBrushSize` and `setThresholdRange` perform nothing
when no tool groups exist. -/
theorem claim_c8_tool_config :
    (∀ toolGroupIds value, setBrushSizeAction toolGroupIds value none = []) ∧
    (∀ ids value, setBrushSizeAction (some ids) value (some []) =
      ids.map fun toolGroupId => BrushCall.allTools toolGroupId value) ∧
    (∀ ids value n ns, setBrushSizeAction (some ids) value (some (n :: ns)) =
      flatAll (ids.map fun toolGroupId =>
        (n :: ns).map (BrushCall.oneTool toolGroupId value))) ∧
    (∀ value toolNames, setBrushSizeAction none value toolNames = [] ∧
      setBrushSizeAction (some []) value toolNames = []) ∧
    (∀ getToolGroup value toolNames,
      setThresholdRangeAction getToolGroup none value toolNames = .ok [] ∧
      setThresholdRangeAction getToolGroup (some []) value toolNames = .ok []) := by
  refine ⟨?_, ?_, ?_, ?_, ?_⟩
  · intro gids v
    cases gids with
    | none => rfl
    | some ids =>
      simp only [setBrushSizeAction, brushCallsFor]
      exact flatAll_map_const_nil ids
  · intro ids v
    simp only [setBrushSizeAction, brushCallsFor]
    exact flatAll_map_singleton ids _
  · intro ids v n ns
    rfl
  · intro v tns
    exact ⟨rfl, rfl⟩
  · intro g v tns
    exact ⟨rfl, rfl⟩

/-- C9: with the segmentation found, any prompt response other than the
create-report action makes `storeSegmentation` return `undefined` without
calling the backend store, without touching the metadata store, and without
raising an error. -/
theorem claim_c9_store_cancel (env : Env) (segId : String)
    (dataSource : Option DataSourceConfig) (s : OhifSegmentation)
    (h1 : env.ohifSeg segId = some s)
    (h2 : env.promptResult.action ≠ PROMPT_CREATE_REPORT) :
    storeSegmentationAction env segId dataSource =
      .ok { returned := none, storeCalls := [], metadataAdded := [] } := by
  simp only [storeSegmentationAction, h1]
  rw [if_neg h2]

/-- Witness for C9 on `envCancel`, whose prompt response is not
create-report. -/
theorem claim_c9_witness :
    envCancel.ohifSeg "s" = some ohifSegA ∧
    envCancel.promptResult.action ≠ PROMPT_CREATE_REPORT ∧
    storeSegmentationAction envCancel "s" none =
      .ok { returned := none, storeCalls := [], metadataAdded := [] } :=
  ⟨rfl, by decide, claim_c9_store_cancel envCancel "s" none ohifSegA rfl (by decide)⟩

/-- C10: in `downloadRTSS`, an error from serializing the RT Structure Set
to a blob, or from navigating to its URL, is caught and only logged: the
action returns normally and no navigation is recorded. -/
theorem claim_c10_rtss_errors_swallowed (env : Env) (segId : String) (s : OhifSegmentation)
    (h1 : env.ohifSeg segId = some s) :
    (∀ e, env.datasetToBlob (env.rtssOf s) = .error e →
      downloadRTSSAction env segId = .ok { navigatedTo := none }) ∧
    (∀ b e, env.datasetToBlob (env.rtssOf s) = .ok b →
      env.locationAssign (env.createObjectURL b) = .error e →
      downloadRTSSAction env segId = .ok { navigatedTo := none }) := by
  constructor
  · intro e he
    simp only [downloadRTSSAction, generateRTSSFromSegmentationsM, h1, he]
  · intro b e hb he
    simp only [downloadRTSSAction, generateRTSSFromSegmentationsM, h1, hb, he]

/-- Witness for C10 on `envBlobFail` (failing serialization) and
`envNavFail` (failing navigation). -/
theorem claim_c10_witness :
    (envBlobFail.ohifSeg "s" = some ohifSegA ∧
     envBlobFail.datasetToBlob (envBlobFail.rtssOf ohifSegA) =
       .error (.errorMsg "serialize failed") ∧
     downloadRTSSAction envBlobFail "s" = .ok { navigatedTo := none }) ∧
    (envNavFail.ohifSeg "s" = some ohifSegA ∧
     envNavFail.datasetToBlob (envNavFail.rtssOf ohifSegA) = .ok { tag := 4 } ∧
     envNavFail.locationAssign (envNavFail.createObjectURL { tag := 4 }) =
       .error (.errorMsg "nav failed") ∧
     downloadRTSSAction envNavFail "s" = .ok { navigatedTo := none }) :=
  ⟨⟨rfl, rfl,
    (claim_c10_rtss_errors_swallowed envBlobFail "s" ohifSegA rfl).1
      (.errorMsg "serialize failed") rfl⟩,
   ⟨rfl, rfl, rfl,
    (claim_c10_rtss_errors_swallowed envNavFail "s" ohifSegA rfl).2
      { tag := 4 } (.errorMsg "nav failed") rfl rfl⟩⟩
